import Mathlib

/-!
Verification of `intern/cycles/blender/blender_object.cpp` (Blender Cycles
object synchronization). The C++ source is shallowly embedded below:
pure computations become Lean functions, the stateful parts of
`sync_object` / `sync_objects` become explicit state-passing functions,
machine unsigned integers become `Nat` (bit operations taken in 32 bits
where a complement occurs), and `float` quantities become `ℚ`.
External collaborators that live outside this file (RNA introspection,
the render node system, hash utilities) are modelled as parameters or,
where the specification pins their behaviour down, as definitions marked
`Modelled from the spec`.
-/

namespace BlenderObject

/-- A 4-component float vector (`float4`), floats modelled as rationals. -/
structure Float4 where
  x : ℚ
  y : ℚ
  z : ℚ
  w : ℚ
deriving DecidableEq, Repr

/-- A 3-component float vector (`float3`), floats modelled as rationals. -/
structure Float3 where
  x : ℚ
  y : ℚ
  z : ℚ
deriving DecidableEq, Repr

/-- A 2-component float vector (`float2`). -/
structure Float2 where
  x : ℚ
  y : ℚ
deriving DecidableEq, Repr

/-- Object transforms are only stored and compared for equality by the
code under verification, so we model `Transform` abstractly as `ℚ`. -/
abbrev Transform := ℚ

/-- Modelled from the spec: `transform_empty()` from the util headers (not
under `src/`), a distinguished empty transform used to fill motion arrays. -/
def transform_empty : Transform := 0

/- ## Visibility flags

`PATH_RAY_CAMERA` and `PATH_RAY_ALL_VISIBILITY` come from the kernel
headers, which are not part of the repository slice. -/

/-- Modelled from the spec: the camera visibility bit (`PATH_RAY_CAMERA`),
the lowest ray-visibility bit. -/
def PATH_RAY_CAMERA : Nat := 1

/-- Modelled from the spec: the mask of all visibility kinds
(`PATH_RAY_ALL_VISIBILITY`); it contains the camera bit. -/
def PATH_RAY_ALL_VISIBILITY : Nat := 255

/-- All bits of a 32-bit unsigned integer; `~x` on a `uint` is embedded as
`UINT32_MASK ^^^ x`. -/
def UINT32_MASK : Nat := 2 ^ 32 - 1

/-- The visibility computation of `BlenderSync::sync_object`
(blender_object.cpp lines 159-181): start from the object's ray
visibility masked to all visibility kinds, intersect with the parent's
ray visibility when the parent is a different object, and clear the
camera bit for indirect-only objects
(`use_indirect_only = !use_holdout && parent.indirect_only`). -/
def computeVisibility (visObj visParent : Nat) (samePtr : Bool)
    (useHoldout indirectOnlyParent : Bool) : Nat :=
  let visibility := visObj &&& PATH_RAY_ALL_VISIBILITY
  let visibility := if samePtr then visibility else visibility &&& visParent
  let use_indirect_only := !useHoldout && indirectOnlyParent
  if use_indirect_only then visibility &&& (UINT32_MASK ^^^ PATH_RAY_CAMERA)
  else visibility

/-- The visibility mask as the specification states it:
`(V_o & ALL & (parent differs ? V_p : ~0)) & ~(I & ~H ? CAMERA : 0)`. -/
def specVisibilityMask (visObj visParent : Nat) (samePtr : Bool)
    (holdout indirectOnly : Bool) : Nat :=
  ((visObj &&& PATH_RAY_ALL_VISIBILITY) &&&
      (if samePtr then UINT32_MASK else visParent)) &&&
    (UINT32_MASK ^^^ (if indirectOnly && !holdout then PATH_RAY_CAMERA else 0))

/- ## Object classification (`object_is_geometry`, `object_is_light`)

`BL::Object::type_enum` and the RNA `is_a` checks are reflected as
enumerations; only the values this file reads are modelled. -/

/-- The values of `BL::Object::type_enum` that the source distinguishes. -/
inductive ObjectType
  | MESH
  | CURVE
  | META
  | VOLUME
  | HAIR
  | LIGHT
  | OTHER
deriving DecidableEq, Repr

/-- The RNA dynamic kind of a data block, as tested by `is_a(&RNA_...)`. -/
inductive DataKind
  | mesh
  | curve
  | metaball
  | light
  | other
deriving DecidableEq, Repr

/-- The slice of an object's data block (`b_ob.data()`) read by this
file: its RNA kind and, for curves, the fields of `BL::Curve` that
`object_is_geometry` inspects. -/
structure DataBlock where
  kind : DataKind
  /-- `b_curve.bevel_object()` is non-null. -/
  bevel_object : Bool
  /-- `b_curve.extrude()`. -/
  extrude : ℚ
  /-- `b_curve.bevel_depth()`. -/
  bevel_depth : ℚ
  /-- `b_curve.dimensions() == BL::Curve::dimensions_2D`. -/
  dimensions_2d : Bool
deriving DecidableEq, Repr

/-- The slice of `BL::Object` read by the classification predicates. -/
structure BObject where
  /-- `b_ob.data()`; `none` models a null data pointer. -/
  data : Option DataBlock
  type : ObjectType
  /-- `b_ob.modifiers.length()`. -/
  modifiers_length : Nat
deriving DecidableEq, Repr

/-- `BlenderSync::object_is_geometry` (blender_object.cpp lines 65-91):
null data is not geometry; volume and hair types always are; curves
qualify only with a bevel object, non-zero extrude, non-zero bevel
depth, 2D dimensions or at least one modifier; otherwise the data block
must be a mesh, curve or metaball. -/
def object_is_geometry (b_ob : BObject) : Bool :=
  match b_ob.data with
  | none => false
  | some b_ob_data =>
    if b_ob.type == ObjectType.VOLUME || b_ob.type == ObjectType.HAIR then
      true
    else if b_ob.type == ObjectType.CURVE then
      b_ob_data.bevel_object || b_ob_data.extrude != 0 ||
        b_ob_data.bevel_depth != 0 || b_ob_data.dimensions_2d ||
        b_ob.modifiers_length != 0
    else
      b_ob_data.kind == DataKind.mesh || b_ob_data.kind == DataKind.curve ||
        b_ob_data.kind == DataKind.metaball

/-- `BlenderSync::object_is_light` (blender_object.cpp lines 93-98). -/
def object_is_light (b_ob : BObject) : Bool :=
  match b_ob.data with
  | none => false
  | some b_ob_data => b_ob_data.kind == DataKind.light

/- ## The outcome of one `sync_object` call (early-return cascade) -/

/-- The inputs `BlenderSync::sync_object` bases its early returns on.
`culled` is the (opaque) result of `culling.test(scene, b_ob, tfm)`;
the visibility fields feed `computeVisibility`. -/
structure SyncObjectInput where
  motion_time : ℚ
  show_lights : Bool
  b_ob : BObject
  culled : Bool
  /-- `object_ray_visibility(b_ob)`. -/
  vis_object : Nat
  /-- `object_ray_visibility(b_parent)`. -/
  vis_parent : Nat
  /-- `b_parent.ptr.data == b_ob.ptr.data`. -/
  same_ptr : Bool
  /-- cycles property `is_holdout` on the object. -/
  ob_holdout : Bool
  /-- `b_parent.holdout_get(...)`. -/
  parent_holdout : Bool
  /-- `b_parent.indirect_only_get(...)`. -/
  parent_indirect_only : Bool
deriving Repr

/-- How one `sync_object` call ends. All `skipped*` and `lightSync`
outcomes return NULL (no render Object is produced). -/
inductive SyncOutcome
  | lightSync
  | skippedLight
  | skippedNonGeometry
  | skippedCulled
  | skippedInvisible
  | motionUpdate
  | fullSync
deriving DecidableEq, Repr

/-- The early-return structure of `BlenderSync::sync_object`
(blender_object.cpp lines 111-220), read off the source control flow:
light handling first (only outside motion passes), then the geometry
qualification test, the culling test, the visibility test, then the
motion branch, and only then the full sync path. -/
def sync_object_outcome (inp : SyncObjectInput) : SyncOutcome :=
  let motion := inp.motion_time != 0
  if !motion && object_is_light inp.b_ob then
    if !inp.show_lights then SyncOutcome.skippedLight else SyncOutcome.lightSync
  else if !object_is_geometry inp.b_ob then SyncOutcome.skippedNonGeometry
  else if inp.culled then SyncOutcome.skippedCulled
  else
    let use_holdout := inp.ob_holdout || inp.parent_holdout
    let visibility := computeVisibility inp.vis_object inp.vis_parent
      inp.same_ptr use_holdout inp.parent_indirect_only
    if visibility == 0 then SyncOutcome.skippedInvisible
    else if motion then SyncOutcome.motionUpdate
    else SyncOutcome.fullSync

/-- The transition logic exactly as the specification words it: a
first-match-wins cascade — non-motion light, non-geometry-bearing data,
culling hit, zero visibility, motion pass, full sync. -/
def specTransition (inp : SyncObjectInput) : SyncOutcome :=
  if inp.motion_time == 0 && object_is_light inp.b_ob then
    if inp.show_lights then SyncOutcome.lightSync else SyncOutcome.skippedLight
  else if object_is_geometry inp.b_ob == false then
    SyncOutcome.skippedNonGeometry
  else if inp.culled then SyncOutcome.skippedCulled
  else if computeVisibility inp.vis_object inp.vis_parent inp.same_ptr
      (inp.ob_holdout || inp.parent_holdout) inp.parent_indirect_only = 0 then
    SyncOutcome.skippedInvisible
  else if inp.motion_time != 0 then SyncOutcome.motionUpdate
  else SyncOutcome.fullSync

/- ## Property lookup (`lookup_property`, `lookup_instance_property`) -/

/-- What `RNA_path_resolve` plus the property-type/array-length queries
yield for one path on one ID datablock: the cases `lookup_property`
distinguishes. `floatArray` models `PROP_FLOAT` with `arraylen ≥ 1`
(the list is the array contents); `otherArray` any other array. -/
inductive RNAProp
  | scalarFloat (value : ℚ)
  | scalarInt (value : Int)
  | scalarOther
  | floatArray (values : List ℚ)
  | otherArray (len : Nat)
deriving DecidableEq, Repr

/-- An ID datablock, seen through RNA path resolution: a partial map
from paths to resolved properties (`none` models resolution failure). -/
def BID : Type := String → Option RNAProp

/-- The out-parameter fill of the float-array branch of
`lookup_property`: `*r_value` starts as `(0,0,0,1)` and
`RNA_property_float_get_array` overwrites the first `arraylen`
components. -/
def fillFloatArray (values : List ℚ) : Float4 :=
  { x := values.getD 0 0, y := values.getD 1 0,
    z := values.getD 2 0, w := values.getD 3 1 }

/-- `lookup_property` (blender_object.cpp lines 347-379): fail when the
path does not resolve; scalars of float or int type broadcast to
`(v,v,v,1)`; float arrays of length at most 4 fill `(0,0,0,1)`
prefix-wise; anything else fails. -/
def lookup_property (b_id : BID) (name : String) : Option Float4 :=
  match b_id name with
  | none => none
  | some (RNAProp.scalarFloat value) => some ⟨value, value, value, 1⟩
  | some (RNAProp.scalarInt value) =>
    some ⟨(value : ℚ), (value : ℚ), (value : ℚ), 1⟩
  | some RNAProp.scalarOther => none
  | some (RNAProp.floatArray values) =>
    if values.length != 0 && values.length ≤ 4 then
      some (fillFloatArray values)
    else none
  | some (RNAProp.otherArray _) => none

/-- The indexed-name form `string_printf("[\"%s\"]", name)`. -/
def idpropName (name : String) : String := "[\"" ++ name ++ "\"]"

/-- The slice of `BL::DepsgraphObjectInstance` read by the attribute
lookup code: instance flag, particle-system settings (when a particle
system exists), instancing parent, the object and its data block, each
as an RNA property source. -/
structure BInstance where
  is_instance : Bool
  /-- `b_instance.particle_system().settings()`; `none` when the
  instance has no particle system. -/
  particle_system : Option BID
  /-- `b_instance.parent()`. -/
  parent : BID
  /-- `b_instance.object()`. -/
  obj : BID
  /-- `b_instance.object().data()`. -/
  obj_data : BID

/-- `lookup_instance_property` (blender_object.cpp lines 382-415): for
instancer-scope requests on an actual instance, try the particle-system
settings (indexed then literal name), then the instancing parent (same
two forms); in all cases fall through to the object (indexed then
literal) and the object's data block (indexed then literal); all
lookups failing yields `(0,0,0,0)`. -/
def lookup_instance_property (bi : BInstance) (name : String)
    (use_instancer : Bool) : Float4 :=
  let idprop_name := idpropName name
  let instancer_value : Option Float4 :=
    if use_instancer && bi.is_instance then
      (match bi.particle_system with
       | some b_psys =>
         (lookup_property b_psys idprop_name).orElse
           (fun _ => lookup_property b_psys name)
       | none => none).orElse (fun _ =>
        (lookup_property bi.parent idprop_name).orElse
          (fun _ => lookup_property bi.parent name))
    else none
  (instancer_value.orElse (fun _ =>
    ((lookup_property bi.obj idprop_name).orElse
        (fun _ => lookup_property bi.obj name)).orElse (fun _ =>
      (lookup_property bi.obj_data idprop_name).orElse
        (fun _ => lookup_property bi.obj_data name)))).getD ⟨0, 0, 0, 0⟩

/-- The fallback chain exactly as the specification lists it, as an
ordered list of lookups (first entry checked first). -/
def specAttributeChain (bi : BInstance) (name : String)
    (use_instancer : Bool) : List (Option Float4) :=
  (if use_instancer && bi.is_instance then
    (match bi.particle_system with
     | some b_psys =>
       [lookup_property b_psys (idpropName name),
        lookup_property b_psys name]
     | none => []) ++
      [lookup_property bi.parent (idpropName name),
       lookup_property bi.parent name]
  else []) ++
    [lookup_property bi.obj (idpropName name),
     lookup_property bi.obj name,
     lookup_property bi.obj_data (idpropName name),
     lookup_property bi.obj_data name]

/-- First success in the chain wins; if everything fails the result is
the zero vector, a defined default. -/
def specResolveAttribute (bi : BInstance) (name : String)
    (use_instancer : Bool) : Float4 :=
  ((specAttributeChain bi name use_instancer).filterMap id).headD ⟨0, 0, 0, 0⟩

/-- The first success of an ordered list of lookups (`none` when every
lookup fails); a combinator used to reason about fallback chains. -/
def chainFirst (l : List (Option Float4)) : Option Float4 :=
  l.foldr (fun a acc => a.orElse (fun _ => acc)) none

/- ## Motion blur bookkeeping in the changed branch of `sync_object` -/

/-- `Scene::need_motion()` results (`Scene::MotionType`). -/
inductive MotionType
  | NONE
  | PASS
  | BLUR
deriving DecidableEq, Repr

/-- Modelled from the spec: `Object::motion_time(step)` of the render
Object (render/object.cpp, outside the repository slice) — the relative
sample offsets are symmetric about 0, the center step sits at offset 0,
and with fewer than two samples the only offset is 0. Sample `step` of
`steps` sits at `2*step/(steps-1) - 1`. -/
def motion_time (steps step : Nat) : ℚ :=
  if steps ≤ 1 then 0 else 2 * (step : ℚ) / ((steps : ℚ) - 1) - 1

/-- The number of motion samples the changed branch uses
(blender_object.cpp lines 294-306): the `object_motion_steps` result in
blur mode, a fixed 3 in motion-pass mode. `object_motion_steps` lives in
blender_util.h outside the slice and enters as `steps_param`. -/
def effectiveMotionSteps (need_motion : MotionType) (steps_param : Nat) : Nat :=
  if need_motion == MotionType.BLUR then steps_param else 3

/-- What the motion-blur block of the changed branch leaves behind: the
object's motion array, the geometry's motion-blur flag and step count,
and the relative times inserted into the process-wide `motion_times`
set. -/
structure MotionBlurEffect where
  motion : List Transform
  use_motion_blur : Bool
  motion_steps : Nat
  inserted_times : List ℚ
deriving Repr

/-- The motion-blur block of `sync_object`'s changed branch
(blender_object.cpp lines 284-320): nothing happens when motion is off
or the object has no geometry; otherwise the step count is chosen per
mode, the motion array is resized to it filled with `transform_empty`,
and when it is non-zero the center slot `motion_steps / 2` is set to
the base transform and the `motion_steps` relative offsets
`object->motion_time(step)` are inserted into `motion_times`. -/
def syncMotionBlur (need_motion : MotionType) (steps_param : Nat)
    (use_deform : Bool) (has_geometry : Bool) (tfm : Transform) :
    MotionBlurEffect :=
  if need_motion == MotionType.NONE || !has_geometry then
    { motion := [], use_motion_blur := false, motion_steps := 0,
      inserted_times := [] }
  else
    let motion_steps := effectiveMotionSteps need_motion steps_param
    let use_blur := need_motion == MotionType.BLUR &&
      (motion_steps != 0 && use_deform)
    let motion := List.replicate motion_steps transform_empty
    if motion_steps != 0 then
      { motion := motion.set (motion_steps / 2) tfm,
        use_motion_blur := use_blur,
        motion_steps := motion_steps,
        inserted_times := (List.range motion_steps).map
          (motion_time motion_steps) }
    else
      { motion := motion, use_motion_blur := use_blur,
        motion_steps := motion_steps, inserted_times := [] }

/- ## Attribute reconciliation (`sync_object_attributes`) -/

/-- `BL::ShaderNodeAttribute::attribute_type`, the result kinds of
`blender_attribute_name_split_type`. -/
inductive AttributeType
  | GEOMETRY
  | OBJECT
  | INSTANCER
deriving DecidableEq, Repr

/-- One stored `ParamValue` on a render Object: the full attribute name
and its `TypeFloat4` payload; `memcmp` on the payload is value equality
in this embedding. -/
structure ParamValue where
  name : String
  value : Float4
deriving DecidableEq, Repr

/-- Modelled from the spec: `AttributeRequestSet::find(name)`
(render/attribute.cpp, outside the slice) — whether some needed
attribute carries this name. -/
def requestsFind (requests : List String) (name : String) : Bool :=
  requests.contains name

/-- The deletion loop of `sync_object_attributes` (blender_object.cpp
lines 426-431): indices are walked downward and entries whose name is
no longer requested are erased, which preserves the order of the kept
entries; each erase raises the changed flag. -/
def removeUnneeded (requests : List String) :
    List ParamValue → List ParamValue × Bool
  | [] => ([], false)
  | p :: rest =>
    let r := removeUnneeded requests rest
    if requestsFind requests p.name then (p :: r.1, r.2) else (r.1, true)

/-- One non-geometry request's update (blender_object.cpp lines
444-465): find the first stored attribute with the request's name,
append a fresh `ParamValue` at the end when absent, and overwrite the
found one only when the new value differs (`memcmp`) from the stored
one; either mutation raises the changed flag. -/
def updateOne (attrs : List ParamValue) (name : String) (value : Float4) :
    List ParamValue × Bool :=
  match attrs with
  | [] => ([⟨name, value⟩], true)
  | p :: rest =>
    if p.name == name then
      if p.value == value then (p :: rest, false)
      else (⟨name, value⟩ :: rest, true)
    else
      let u := updateOne rest name value
      (p :: u.1, u.2)

/-- The update loop of `sync_object_attributes` (blender_object.cpp
lines 434-467): each request whose split type is not the raw-geometry
kind is resolved through the instance-property chain and written
through `updateOne`. `split` mirrors
`blender_attribute_name_split_type` (blender_shader.cpp, outside the
slice) and `resolve` is the value lookup. -/
def updateAttributes (split : String → AttributeType × String)
    (resolve : String → Bool → Float4) :
    List String → List ParamValue → List ParamValue × Bool
  | [], attrs => (attrs, false)
  | req :: reqs, attrs =>
    if (split req).1 == AttributeType.GEOMETRY then
      updateAttributes split resolve reqs attrs
    else
      let value := resolve (split req).2 ((split req).1 == AttributeType.INSTANCER)
      let u := updateOne attrs req value
      let rest := updateAttributes split resolve reqs u.1
      (rest.1, u.2 || rest.2)

/-- `BlenderSync::sync_object_attributes` (blender_object.cpp lines
417-470): delete stored attributes that are no longer needed, then
update the needed non-geometry ones, reporting whether anything
changed. -/
def sync_object_attributes (split : String → AttributeType × String)
    (bi : BInstance) (requests : List String) (attrs : List ParamValue) :
    List ParamValue × Bool :=
  let r := removeUnneeded requests attrs
  let u := updateAttributes split
    (fun real_name use_instancer =>
      lookup_instance_property bi real_name use_instancer)
    requests r.1
  (u.1, r.2 || u.2)

/-- The `ParamValue` that reconciliation writes for one requested
non-geometry attribute name. -/
def targetParam (split : String → AttributeType × String)
    (resolve : String → Bool → Float4) (req : String) : ParamValue :=
  ⟨req, resolve (split req).2 ((split req).1 == AttributeType.INSTANCER)⟩

/- ## Render entity state, identity map, and the two `sync_object`
state-changing paths -/

/-- The identity key (`ObjectKey`): parent handle, persistent-id array,
instanced-object handle, particle-hair variant flag. Handles are opaque
naturals in the embedding; the key compares by value. -/
structure ObjectKey where
  parent : Nat
  persistent_id : List Int
  ob : Nat
  use_particle_hair : Bool
deriving DecidableEq, Repr

/-- The slice of the shared Geometry entity read/written by
`sync_object`: its node modified flag and the two motion fields the
changed branch writes. -/
structure CGeometry where
  /-- an opaque handle standing for the shared entity's address; the
  "geometry pointer" compares by this handle. -/
  id : Nat
  is_modified : Bool
  use_motion_blur : Bool
  motion_steps : Nat
deriving DecidableEq, Repr

/-- The render Object entity, with the fields `sync_object` touches.
Socket writes raise `is_modified` exactly when the value changes
(modelled from the spec invariant that dirty flags are monotone within
a pass); `use_holdout_modified` is the `use_holdout` socket's own flag
(`use_holdout_is_modified()`); `use_motion` and `motion_step` stand for
`Object::use_motion()` / `Object::motion_step(time)` of
render/object.h, outside the slice. `name` and `attributes` are plain
members, not sockets: writing them raises no modified flag. -/
structure CObject where
  name : String
  pass_id : Int
  color : Float3
  tfm : Transform
  motion : List Transform
  geometry : Option CGeometry
  use_holdout : Bool
  visibility : Nat
  is_shadow_catcher : Bool
  shadow_terminator_offset : ℚ
  asset_name : String
  dupli_generated : Float3
  dupli_uv : Float2
  random_id : Nat
  attributes : List ParamValue
  use_motion : Bool
  motion_step : ℚ → Int
  is_modified : Bool
  use_holdout_modified : Bool

/-- The identity map, keyed by value (`object_map`). -/
def ObjectMap : Type := List (ObjectKey × CObject)

/-- `object_map.find(key)` — the non-mutating lookup used by motion
passes. -/
def object_map_find (omap : ObjectMap) (key : ObjectKey) : Option CObject :=
  (List.find? (fun kv => kv.1 == key) omap).map (fun kv => kv.2)

/-- The motion-pass branch of `sync_object` (blender_object.cpp lines
196-220): a non-mutating `find`; on a hit with motion capability the
single motion slot `motion_step(motion_time)` is written (skipped when
that index is negative) and the geometry's deform motion is synced for
that time when geometry is present (`sync_geometry_motion`, reported
here as the returned flag). Returns the returned object, the map after
the in-place update, and whether deform motion sync ran. -/
def sync_object_motion_pass (omap : ObjectMap) (key : ObjectKey)
    (motion_time : ℚ) (tfm : Transform) :
    Option CObject × ObjectMap × Bool :=
  match object_map_find omap key with
  | none => (none, omap, false)
  | some object =>
    if object.use_motion then
      let time_index := object.motion_step motion_time
      let o := if 0 ≤ time_index then
          { object with motion := object.motion.set time_index.toNat tfm }
        else object
      (some o, List.map (fun kv => if kv.1 == key then (kv.1, o) else kv) omap,
        o.geometry.isSome)
    else (some object, omap, false)

/- ## The full (non-motion) sync tail of `sync_object` -/

/-- The inputs of the full sync tail (blender_object.cpp lines
222-343), once the entity has been obtained from
`object_map.add_or_update`. Values computed by external collaborators
(`sync_geometry`, the parent-chain walk for the Cryptomatte asset name,
RNA reads, `object_motion_steps`, `object_use_deform_motion`) enter as
fields. -/
structure FullSyncInput where
  is_instance : Bool
  /-- `b_ob.name()`. -/
  name : String
  /-- `b_ob.pass_index()`. -/
  pass_index : Int
  /-- `get_float3(b_ob.color())`. -/
  color : Float3
  tfm : Transform
  use_holdout : Bool
  visibility : Nat
  is_shadow_catcher : Bool
  shadow_terminator_offset : ℚ
  /-- the topmost parent's name from the parent-chain walk (lines
  261-271), or the object's own name when it has no parent. -/
  asset_name : String
  /-- the `sync_geometry` result. -/
  geometry : Option CGeometry
  need_motion : MotionType
  /-- `object_motion_steps(b_parent, b_ob, Object::MAX_MOTION_STEPS)`. -/
  motion_steps_param : Nat
  /-- `object_use_deform_motion(b_parent, b_ob)`. -/
  use_deform_motion : Bool
  /-- `get_float3(b_instance.orco())`. -/
  orco : Float3
  /-- `get_float2(b_instance.uv())`. -/
  uv : Float2
  /-- `b_instance.random_id()`. -/
  random_id_instance : Nat
  /-- the names in `geometry->needed_attributes()`. -/
  requests : List String
  /-- `blender_attribute_name_split_type` (blender_shader.cpp, outside
  the slice). -/
  split : String → AttributeType × String
  /-- the depsgraph instance, for `lookup_instance_property`. -/
  bi : BInstance

/-- What one full sync leaves behind: the written entity, the
`object_updated` flag, whether `object->tag_update(scene)` ran, whether
the `HOLDOUT_MODIFIED` tag was raised, and the motion times inserted
into the process-wide set. -/
structure FullSyncResult where
  object : CObject
  object_updated : Bool
  tagged_update : Bool
  holdout_tagged : Bool
  inserted_times : List ℚ

/-- The unconditional writes of the full sync path (lines 238-272):
geometry, attribute reconciliation, holdout (with its socket-level
modified flag driving the `HOLDOUT_MODIFIED` tag), visibility, shadow
catcher, shadow terminator offset, asset name. A socket write raises
the node's modified flag exactly when the value changes; `attributes`
is a plain member and raises nothing. Returns the written object, the
attribute-reconciliation changed flag, and whether the holdout tag is
raised. -/
def fullSyncWrites (inp : FullSyncInput) (obj0 : CObject) :
    CObject × Bool × Bool :=
  let o1 := { obj0 with
    geometry := inp.geometry,
    is_modified := obj0.is_modified || (inp.geometry != obj0.geometry) }
  let a := sync_object_attributes inp.split inp.bi inp.requests o1.attributes
  let o2 := { o1 with attributes := a.1 }
  let o3 := { o2 with
    use_holdout := inp.use_holdout,
    is_modified := o2.is_modified || (inp.use_holdout != o2.use_holdout),
    use_holdout_modified := o2.use_holdout_modified ||
      (inp.use_holdout != o2.use_holdout) }
  let o4 := { o3 with
    visibility := inp.visibility,
    is_modified := o3.is_modified || (inp.visibility != o3.visibility) }
  let o5 := { o4 with
    is_shadow_catcher := inp.is_shadow_catcher,
    is_modified := o4.is_modified ||
      (inp.is_shadow_catcher != o4.is_shadow_catcher) }
  let o6 := { o5 with
    shadow_terminator_offset := inp.shadow_terminator_offset,
    is_modified := o5.is_modified ||
      (inp.shadow_terminator_offset != o5.shadow_terminator_offset) }
  let o7 := { o6 with
    asset_name := inp.asset_name,
    is_modified := o6.is_modified || (inp.asset_name != o6.asset_name) }
  (o7, a.2, o3.use_holdout_modified)

/-- The change detection of lines 277-279, with
`object_updated = created-or-moved || attributes-changed` as lines 225
and 242-244 accumulate it: the entity's node-level modified flag, the
map update, the geometry's own modified flag, or the cached transform
differing from the new one. -/
def fullSyncChanged (inp : FullSyncInput) (obj0 : CObject)
    (created : Bool) : Bool :=
  let o := (fullSyncWrites inp obj0).1
  o.is_modified || (created || (fullSyncWrites inp obj0).2.1) ||
    (match o.geometry with
     | some g => g.is_modified
     | none => false) ||
    (inp.tfm != o.tfm)

/-- The change condition exactly as the specification's change-detection
sentence lists it: the entity's own is-modified flag, a freshly
created-or-moved identity-map slot, the geometry's modified flag, or
the cached transform differing — with no attribute-reconciliation
trigger. -/
def specChangeCondition (inp : FullSyncInput) (obj0 : CObject)
    (created : Bool) : Bool :=
  let o := (fullSyncWrites inp obj0).1
  o.is_modified || created ||
    (match o.geometry with
     | some g => g.is_modified
     | none => false) ||
    (inp.tfm != o.tfm)

/-- The geometry-side writes of the motion-blur block
(`geom->set_use_motion_blur`, `geom->set_motion_steps`,
lines 289-306). -/
def applyMotionToGeometry (mb : MotionBlurEffect) (g : CGeometry) :
    CGeometry :=
  { g with
    use_motion_blur := mb.use_motion_blur,
    motion_steps := mb.motion_steps }

/-- The full sync tail of `sync_object` (lines 222-343): after the
unconditional writes, when the change detection fires, the name,
pass id, color, transform, motion array (emptied, then filled by the
motion-blur block, which also writes the geometry's motion fields) and
the dupli fields are rewritten and `object->tag_update(scene)` is
called; otherwise none of those are touched. `hash` stands for
`hash_uint2(hash_string(name), 0)` (util hashes, outside the slice);
`sync_dupli_particle` (blender_particles.cpp, outside the slice) is not
modelled. -/
def sync_object_full (inp : FullSyncInput) (obj0 : CObject)
    (created : Bool) (hash : String → Nat) : FullSyncResult :=
  let o := (fullSyncWrites inp obj0).1
  let attr_changed := (fullSyncWrites inp obj0).2.1
  let holdout_tag := (fullSyncWrites inp obj0).2.2
  if fullSyncChanged inp obj0 created then
    let o8 := { o with name := inp.name }
    let o9 := { o8 with
      pass_id := inp.pass_index,
      is_modified := o8.is_modified || (inp.pass_index != o8.pass_id) }
    let o10 := { o9 with
      color := inp.color,
      is_modified := o9.is_modified || (inp.color != o9.color) }
    let o11 := { o10 with
      tfm := inp.tfm,
      is_modified := o10.is_modified || (inp.tfm != o10.tfm) }
    let o12 := { o11 with
      motion := ([] : List Transform),
      is_modified := o11.is_modified ||
        (([] : List Transform) != o11.motion) }
    let mb := syncMotionBlur inp.need_motion inp.motion_steps_param
      inp.use_deform_motion o12.geometry.isSome inp.tfm
    let o13 := { o12 with
      motion := mb.motion,
      geometry := if inp.need_motion != MotionType.NONE then
          o12.geometry.map (applyMotionToGeometry mb)
        else o12.geometry,
      is_modified := o12.is_modified || (mb.motion != o12.motion) }
    let dg := if inp.is_instance then
        (⟨(1/2) * inp.orco.x - 1/2, (1/2) * inp.orco.y - 1/2,
          (1/2) * inp.orco.z - 1/2⟩ : Float3)
      else ⟨0, 0, 0⟩
    let duv := if inp.is_instance then inp.uv else ⟨0, 0⟩
    let rid := if inp.is_instance then inp.random_id_instance
      else hash inp.name
    let o14 := { o13 with
      dupli_generated := dg,
      dupli_uv := duv,
      random_id := rid,
      is_modified := o13.is_modified || (dg != o13.dupli_generated) ||
        (duv != o13.dupli_uv) || (rid != o13.random_id) }
    { object := o14, object_updated := created || attr_changed,
      tagged_update := true, holdout_tagged := holdout_tag,
      inserted_times := mb.inserted_times }
  else
    { object := o, object_updated := created || attr_changed,
      tagged_update := false, holdout_tagged := holdout_tag,
      inserted_times := [] }

/- ## Concrete instances used to evaluate the full sync path -/

/-- A geometry entity that is unchanged this pass. -/
def cexGeometry : CGeometry :=
  { id := 1, is_modified := false, use_motion_blur := false,
    motion_steps := 0 }

/-- An instance whose object carries a float property `a` with value 2
and nothing else. -/
def cexInstance : BInstance :=
  { is_instance := false, particle_system := none,
    parent := fun _ => none,
    obj := fun n => if n = "a" then some (RNAProp.scalarFloat 2) else none,
    obj_data := fun _ => none }

/-- An entity whose stored state matches every incoming value except
the stored attribute `a`, which holds a stale zero vector. -/
def cexObject : CObject :=
  { name := "x", pass_id := 0, color := ⟨0, 0, 0⟩, tfm := 5, motion := [],
    geometry := some cexGeometry, use_holdout := false, visibility := 255,
    is_shadow_catcher := false, shadow_terminator_offset := 0,
    asset_name := "x", dupli_generated := ⟨0, 0, 0⟩, dupli_uv := ⟨0, 0⟩,
    random_id := 0, attributes := [⟨"a", ⟨0, 0, 0, 0⟩⟩],
    use_motion := false, motion_step := fun _ => 0, is_modified := false,
    use_holdout_modified := false }

/-- A full-sync input identical to the stored entity state everywhere,
whose only difference is the freshly resolved attribute value. -/
def cexInput : FullSyncInput :=
  { is_instance := false, name := "x", pass_index := 0, color := ⟨0, 0, 0⟩,
    tfm := 5, use_holdout := false, visibility := 255,
    is_shadow_catcher := false, shadow_terminator_offset := 0,
    asset_name := "x", geometry := some cexGeometry,
    need_motion := MotionType.NONE, motion_steps_param := 0,
    use_deform_motion := false, orco := ⟨0, 0, 0⟩, uv := ⟨0, 0⟩,
    random_id_instance := 0, requests := ["a"],
    split := fun n => (AttributeType.OBJECT, n), bi := cexInstance }

/-- The same entity with its stored attribute already equal to the
freshly resolved value: a fully unchanged re-sync. -/
def cexObjectClean : CObject :=
  { cexObject with attributes := [⟨"a", ⟨2, 2, 2, 1⟩⟩] }

/- ## Task pool dispatch (line 190 and lines 599-632) -/

/-- Line 190: the pool handed on to geometry sync — instances never get
the pool, so their conversion runs synchronously on the calling
thread. -/
def object_geom_task_pool (is_instance : Bool)
    (geom_task_pool : Option Nat) : Option Nat :=
  if is_instance then none else geom_task_pool

/-- Lines 609-617: the pool argument the driver passes to the host
object's own `sync_object` call — withheld when particle hair will be
synced as a separate object, so the host geometry is ready before the
hair task is queued. -/
def driverSelfPool (sync_hair : Bool) (pool : Nat) : Option Nat :=
  if sync_hair then none else some pool

/-- Lines 622-631: the hair `sync_object` call always receives the
pool. -/
def driverHairPool (pool : Nat) : Option Nat := some pool

/- ## The pass driver loop (`sync_objects`, lines 547-654) -/

/-- The per-instance inputs the driver loop reads. -/
structure DriverInstance where
  /-- `!b_v3d || b_ob.visible_in_viewport_get(b_v3d)`. -/
  show_in_viewport : Bool
  /-- `b_instance.show_self()`. -/
  show_self : Bool
  /-- `b_instance.show_particles() && object_has_particle_hair(b_ob)`. -/
  sync_hair : Bool
deriving DecidableEq, Repr

/-- The observable events of one `sync_objects` run, in order. -/
inductive DriverEvent
  /-- the `sync_object`/`sync_procedural` call for the object itself. -/
  | syncSelf (i : Nat)
  /-- the hair `sync_object` call. -/
  | syncHair (i : Nat)
  /-- `cancel = progress.get_cancel()` at the end of the loop body. -/
  | poll (i : Nat)
  /-- `geom_task_pool.wait_work()`. -/
  | waitWork
  /-- the `*_map.post_sync()` sweep block. -/
  | postSync
deriving DecidableEq, Repr

/-- The enumerated-instance index an event refers to. -/
def evIdx : DriverEvent → Nat
  | DriverEvent.syncSelf i => i
  | DriverEvent.syncHair i => i
  | DriverEvent.poll i => i
  | DriverEvent.waitWork => 0
  | DriverEvent.postSync => 0

/-- The instance loop of lines 581-635: the loop condition re-checks the
cancel flag before each iteration; an instance that is not visible in
the viewport is skipped by `continue`, which also skips the cancel
poll; otherwise the body's sync calls run (`driverBody`) and
`progress.get_cancel()` is polled once at the end of the body. `cnc k`
is the poll result after instance `k`. The loop returns the emitted
events and the final cancel flag. -/
def driverBody (i : Nat) (inst : DriverInstance) : List DriverEvent :=
  (if inst.show_self then [DriverEvent.syncSelf i] else []) ++
    (if inst.sync_hair then [DriverEvent.syncHair i] else []) ++
    [DriverEvent.poll i]

/-- The loop itself; see `driverBody` for one shown instance's events. -/
def driverLoop (cnc : Nat → Bool) :
    Nat → List DriverInstance → Bool → List DriverEvent × Bool
  | _, [], cancel => ([], cancel)
  | i, inst :: rest, cancel =>
    if cancel then ([], cancel)
    else if !inst.show_in_viewport then driverLoop cnc (i + 1) rest cancel
    else
      let r := driverLoop cnc (i + 1) rest (cnc i)
      (driverBody i inst ++ r.1, r.2)

/-- `sync_objects` (lines 547-654) as its event trace: the instance
loop, then the unconditional `geom_task_pool.wait_work()` drain, then —
only when not cancelled and not a motion pass — the post-sync sweep of
the identity maps. -/
def sync_objects_trace (motion : Bool) (insts : List DriverInstance)
    (cnc : Nat → Bool) : List DriverEvent :=
  let r := driverLoop cnc 0 insts false
  r.1 ++ [DriverEvent.waitWork] ++
    (if !r.2 && !motion then [DriverEvent.postSync] else [])

end BlenderObject

namespace BlenderObject

/-- C2: the visibility mask computed by `sync_object` equals the object's
ray-visibility flags intersected with the all-visibility-kinds mask,
further intersected with the parent's flags when object and parent
differ, with the camera bit cleared exactly when indirect-only holds
(parent indirect-only and not holdout); at
`V_o = ALL, V_p = ALL`, holdout false, indirect-only true, the mask
excludes exactly the camera bit and nothing else. -/
theorem sync_object_visibility_spec (visObj visParent : Nat) (samePtr : Bool)
    (holdout indirectOnly : Bool) :
    computeVisibility visObj visParent samePtr holdout indirectOnly =
      specVisibilityMask visObj visParent samePtr holdout indirectOnly ∧
    computeVisibility PATH_RAY_ALL_VISIBILITY PATH_RAY_ALL_VISIBILITY false
        false true =
      PATH_RAY_ALL_VISIBILITY ^^^ PATH_RAY_CAMERA := by
  have hmask : ∀ a : Nat, a ≤ 255 → a &&& UINT32_MASK = a := by
    intro a ha
    unfold UINT32_MASK
    rw [Nat.and_pow_two_sub_one_eq_mod, Nat.mod_eq_of_lt (by omega)]
  have h1 : visObj &&& PATH_RAY_ALL_VISIBILITY ≤ 255 := by
    unfold PATH_RAY_ALL_VISIBILITY; exact Nat.and_le_right
  have h2 : (visObj &&& PATH_RAY_ALL_VISIBILITY) &&& visParent ≤ 255 :=
    le_trans Nat.and_le_left h1
  constructor
  · unfold computeVisibility specVisibilityMask
    cases samePtr <;> cases holdout <;> cases indirectOnly <;>
      simp [hmask _ h1, hmask _ h2, Nat.xor_zero]
  · decide

/-- C1: for every source instance, `sync_object`'s outcome is decided by
the fixed first-match-wins cascade the specification states: non-motion
light handling (sync or skip when lights are disabled), then the
geometry-bearing test, then culling, then zero visibility, then the
motion-pass update, and otherwise a full sync. -/
theorem sync_object_outcome_follows_spec (inp : SyncObjectInput) :
    sync_object_outcome inp = specTransition inp := by
  unfold sync_object_outcome specTransition
  by_cases hm : inp.motion_time = 0 <;>
    by_cases hl : object_is_light inp.b_ob = true <;>
    by_cases hs : inp.show_lights = true <;>
    by_cases hg : object_is_geometry inp.b_ob = true <;>
    by_cases hc : inp.culled = true <;>
    by_cases hv : computeVisibility inp.vis_object inp.vis_parent inp.same_ptr
      (inp.ob_holdout || inp.parent_holdout) inp.parent_indirect_only = 0 <;>
    simp_all [bne]

/-- `orElse` with a failing fallback is the identity. -/
theorem orElse_none_right (a : Option Float4) :
    a.orElse (fun _ => none) = a := by
  cases a <;> rfl

/-- `orElse` is associative. -/
theorem orElse_assoc (a b c : Option Float4) :
    (a.orElse (fun _ => b)).orElse (fun _ => c) =
      a.orElse (fun _ => b.orElse (fun _ => c)) := by
  cases a <;> rfl

/-- The first-success reading of a chain agrees with `chainFirst`. -/
theorem headD_filterMap_eq_chainFirst (z : Float4)
    (l : List (Option Float4)) :
    (l.filterMap id).headD z = (chainFirst l).getD z := by
  induction l with
  | nil => rfl
  | cons a l ih =>
    cases a with
    | none => simpa [chainFirst] using ih
    | some v => simp [chainFirst]

/-- `chainFirst` splits over list append as a fallback. -/
theorem chainFirst_append (l1 l2 : List (Option Float4)) :
    chainFirst (l1 ++ l2) =
      (chainFirst l1).orElse (fun _ => chainFirst l2) := by
  induction l1 with
  | nil => rfl
  | cons a l ih =>
    cases a with
    | none => exact ih
    | some v => rfl

/-- C3: the non-geometry attribute value resolved by
`lookup_instance_property` follows the ordered fallback chain with
first success winning — particle-system settings (indexed, literal),
instancing parent (indexed, literal) for instancer-scope requests on an
actual instance, then always the object (indexed, literal) and its data
block (indexed, literal) — and the zero vector is the defined default
when every lookup fails. -/
theorem lookup_instance_property_follows_chain (bi : BInstance)
    (name : String) (use_instancer : Bool) :
    lookup_instance_property bi name use_instancer =
      specResolveAttribute bi name use_instancer := by
  unfold lookup_instance_property specResolveAttribute
  rw [headD_filterMap_eq_chainFirst]
  unfold specAttributeChain
  rw [chainFirst_append]
  cases hui : use_instancer && bi.is_instance
  · simp [chainFirst, orElse_assoc, orElse_none_right]
  · cases hps : bi.particle_system with
    | none => simp [chainFirst, orElse_assoc, orElse_none_right]
    | some psys => simp [chainFirst, orElse_assoc, orElse_none_right]

/-- The relative motion offsets are symmetric about 0: sample
`steps - 1 - step` sits at the negation of sample `step`'s offset. -/
theorem motion_time_symm (steps step : Nat) (h : step < steps) :
    motion_time steps (steps - 1 - step) = -motion_time steps step := by
  unfold motion_time
  by_cases h1 : steps ≤ 1
  · simp [h1]
  · rw [if_neg h1, if_neg h1]
    have h2 : 2 ≤ steps := by omega
    have hc : ((steps - 1 - step : Nat) : ℚ) =
        (steps : ℚ) - 1 - (step : ℚ) := by
      have h0 : steps - 1 - step + step + 1 = steps := by omega
      have h3 : ((steps - 1 - step + step + 1 : Nat) : ℚ) = (steps : ℚ) := by
        exact_mod_cast h0
      push_cast at h3
      linarith
    rw [hc]
    have hne : (steps : ℚ) - 1 ≠ 0 := by
      have : (2 : ℚ) ≤ (steps : ℚ) := by exact_mod_cast h2
      linarith
    field_simp
    ring

/-- The center sample of an odd number of motion steps sits at offset
0 (the base, non-offset time). -/
theorem motion_time_center (k : Nat) : motion_time (2 * k + 1) k = 0 := by
  unfold motion_time
  rcases Nat.eq_zero_or_pos k with hk | hk
  · subst hk; simp
  · have h1 : ¬(2 * k + 1 ≤ 1) := by omega
    rw [if_neg h1]
    have h2 : ((2 * k + 1 : Nat) : ℚ) - 1 = 2 * (k : ℚ) := by
      push_cast; ring
    rw [h2]
    have hk0 : (k : ℚ) ≠ 0 := by
      exact_mod_cast Nat.pos_iff_ne_zero.mp hk
    field_simp

/-- C4: during the base pass, an object requiring `N` motion steps gets
all `N` relative sample offsets inserted into the process-wide
`motion_times` set; those offsets are symmetric about 0, the center
step sits at offset 0, and the center slot `N / 2` of the motion array
holds the base transform. -/
theorem sync_object_motion_blur_inserts_symmetric_times
    (nm : MotionType) (N : Nat) (deform : Bool) (tfm : Transform)
    (hnm : nm ≠ MotionType.NONE)
    (hodd : effectiveMotionSteps nm N % 2 = 1) :
    (syncMotionBlur nm N deform true tfm).motion_steps =
      effectiveMotionSteps nm N ∧
    (∀ step, step < effectiveMotionSteps nm N →
      motion_time (effectiveMotionSteps nm N) step ∈
        (syncMotionBlur nm N deform true tfm).inserted_times) ∧
    (∀ step, step < effectiveMotionSteps nm N →
      motion_time (effectiveMotionSteps nm N)
          (effectiveMotionSteps nm N - 1 - step) =
        -motion_time (effectiveMotionSteps nm N) step) ∧
    motion_time (effectiveMotionSteps nm N)
      (effectiveMotionSteps nm N / 2) = 0 ∧
    (syncMotionBlur nm N deform true tfm).motion.get?
      (effectiveMotionSteps nm N / 2) = some tfm := by
  have hne : (nm == MotionType.NONE) = false := by
    cases nm
    · exact absurd rfl hnm
    · rfl
    · rfl
  have hst0 : effectiveMotionSteps nm N ≠ 0 := by omega
  have hbne : (effectiveMotionSteps nm N != 0) = true := by
    simpa using hst0
  have hval : syncMotionBlur nm N deform true tfm =
      { motion := (List.replicate (effectiveMotionSteps nm N)
            transform_empty).set (effectiveMotionSteps nm N / 2) tfm,
        use_motion_blur := nm == MotionType.BLUR &&
          (effectiveMotionSteps nm N != 0 && deform),
        motion_steps := effectiveMotionSteps nm N,
        inserted_times := (List.range (effectiveMotionSteps nm N)).map
          (motion_time (effectiveMotionSteps nm N)) } := by
    unfold syncMotionBlur
    rw [hne]
    simp [hbne]
  refine ⟨by rw [hval], ?_, ?_, ?_, ?_⟩
  · intro step hs
    rw [hval]
    exact List.mem_map.mpr ⟨step, List.mem_range.mpr hs, rfl⟩
  · intro step hs
    exact motion_time_symm _ _ hs
  · have hk : effectiveMotionSteps nm N =
        2 * (effectiveMotionSteps nm N / 2) + 1 := by omega
    have h := motion_time_center (effectiveMotionSteps nm N / 2)
    rw [← hk] at h
    exact h
  · rw [hval]
    have hlt : effectiveMotionSteps nm N / 2 < effectiveMotionSteps nm N := by
      omega
    simp [List.get?_eq_getElem?, List.getElem?_set_self,
      List.length_replicate, hlt]

/-- Everything surviving the deletion loop was stored before and is
still requested. -/
theorem removeUnneeded_mem (requests : List String)
    (attrs : List ParamValue) (p : ParamValue)
    (hp : p ∈ (removeUnneeded requests attrs).1) :
    p ∈ attrs ∧ requestsFind requests p.name = true := by
  induction attrs with
  | nil => simp [removeUnneeded] at hp
  | cons q rest ih =>
    cases hq : requestsFind requests q.name with
    | true =>
      simp only [removeUnneeded, hq, if_true] at hp
      rcases List.mem_cons.mp hp with hp | hp
      · exact ⟨by simp [hp], hp ▸ hq⟩
      · rcases ih hp with ⟨h1, h2⟩
        exact ⟨List.mem_cons_of_mem _ h1, h2⟩
    | false =>
      simp only [removeUnneeded, hq, Bool.false_eq_true, if_false] at hp
      rcases ih hp with ⟨h1, h2⟩
      exact ⟨List.mem_cons_of_mem _ h1, h2⟩

/-- When every stored name is still requested, the deletion loop keeps
everything and reports no change. -/
theorem removeUnneeded_id (requests : List String)
    (attrs : List ParamValue)
    (h : ∀ p ∈ attrs, requestsFind requests p.name = true) :
    removeUnneeded requests attrs = (attrs, false) := by
  induction attrs with
  | nil => rfl
  | cons q rest ih =>
    have hq := h q (by simp)
    have hrest := ih (fun p hp => h p (List.mem_cons_of_mem _ hp))
    simp [removeUnneeded, hq, hrest]

/-- A no-change report from the deletion loop means nothing was
erased. -/
theorem removeUnneeded_unchanged (requests : List String)
    (attrs : List ParamValue)
    (h : (removeUnneeded requests attrs).2 = false) :
    (removeUnneeded requests attrs).1 = attrs := by
  induction attrs with
  | nil => rfl
  | cons q rest ih =>
    cases hq : requestsFind requests q.name with
    | true =>
      simp only [removeUnneeded, hq, if_true] at h ⊢
      rw [ih h]
    | false =>
      simp [removeUnneeded, hq] at h

/-- A stored attribute whose name is no longer requested makes the
deletion loop report a change. -/
theorem removeUnneeded_removes_flag (requests : List String)
    (attrs : List ParamValue) (p : ParamValue) (hp : p ∈ attrs)
    (h : requestsFind requests p.name = false) :
    (removeUnneeded requests attrs).2 = true := by
  induction attrs with
  | nil => simp at hp
  | cons q rest ih =>
    rcases List.mem_cons.mp hp with rfl | hp
    · cases hq : requestsFind requests p.name with
      | true => rw [hq] at h; exact absurd h (by simp)
      | false => simp [removeUnneeded, hq]
    · cases hq : requestsFind requests q.name with
      | true => simp [removeUnneeded, hq, ih hp]
      | false => simp [removeUnneeded, hq]

/-- Every entry `updateOne` leaves behind was already stored or is the
fresh written parameter. -/
theorem updateOne_mem (attrs : List ParamValue) (name : String)
    (value : Float4) (q : ParamValue)
    (hq : q ∈ (updateOne attrs name value).1) :
    q ∈ attrs ∨ q = ⟨name, value⟩ := by
  induction attrs with
  | nil =>
    simp only [updateOne] at hq
    right
    simpa using hq
  | cons p rest ih =>
    by_cases hn : (p.name == name) = true
    · by_cases hv : (p.value == value) = true
      · simp only [updateOne, hn, hv, if_true] at hq
        exact Or.inl hq
      · simp only [updateOne, hn, hv, if_true, Bool.false_eq_true, if_false] at hq
        rcases List.mem_cons.mp hq with rfl | hq
        · exact Or.inr rfl
        · exact Or.inl (List.mem_cons_of_mem _ hq)
    · simp only [updateOne, hn, Bool.false_eq_true, if_false] at hq
      rcases List.mem_cons.mp hq with rfl | hq
      · exact Or.inl (by simp)
      · rcases ih hq with h | h
        · exact Or.inl (List.mem_cons_of_mem _ h)
        · exact Or.inr h

/-- When the first stored occurrence of the name already carries the
value, `updateOne` is the identity and reports no change. -/
theorem updateOne_id (attrs : List ParamValue) (name : String)
    (value : Float4) (pv : ParamValue)
    (hfind : attrs.find? (fun p => p.name == name) = some pv)
    (hval : pv.value = value) :
    updateOne attrs name value = (attrs, false) := by
  induction attrs with
  | nil => simp at hfind
  | cons p rest ih =>
    by_cases hn : (p.name == name) = true
    · have hpv : p = pv := by simpa [List.find?_cons, hn] using hfind
      have hv : (p.value == value) = true := by
        rw [hpv, hval]; simp
      simp [updateOne, hn, hv]
    · have hf : (p.name == name) = false := by simpa using hn
      simp only [List.find?_cons, hf] at hfind
      simp [updateOne, hf, ih hfind]

/-- After `updateOne`, the first stored occurrence of the name is the
written parameter. -/
theorem updateOne_find (attrs : List ParamValue) (name : String)
    (value : Float4) :
    ((updateOne attrs name value).1).find? (fun p => p.name == name) =
      some ⟨name, value⟩ := by
  induction attrs with
  | nil => simp [updateOne]
  | cons p rest ih =>
    by_cases hn : (p.name == name) = true
    · by_cases hv : (p.value == value) = true
      · have hpeq : p = ⟨name, value⟩ := by
          have h1 : p.name = name := by simpa using hn
          have h2 : p.value = value := by simpa using hv
          cases p; simp_all
        simp only [updateOne, hn, hv, if_true]
        simp [List.find?_cons, hn, hpeq]
      · simp only [updateOne, hn, hv, if_true, Bool.false_eq_true, if_false]
        simp [List.find?_cons]
    · have hf : (p.name == name) = false := by simpa using hn
      simp only [updateOne, hf, Bool.false_eq_true, if_false]
      simp only [List.find?_cons, hf]
      exact ih

/-- `updateOne` does not touch the first occurrence of any other
name. -/
theorem updateOne_find_other (attrs : List ParamValue) (name : String)
    (value : Float4) (n : String) (hne : n ≠ name) :
    ((updateOne attrs name value).1).find? (fun p => p.name == n) =
      attrs.find? (fun p => p.name == n) := by
  induction attrs with
  | nil =>
    simp [updateOne, List.find?_cons, Ne.symm hne]
  | cons p rest ih =>
    by_cases hn : (p.name == name) = true
    · have hpn : (p.name == n) = false := by
        have : p.name = name := by simpa using hn
        simp [this, Ne.symm hne]
      by_cases hv : (p.value == value) = true
      · simp [updateOne, hn, hv]
      · simp only [updateOne, hn, hv, if_true, Bool.false_eq_true, if_false]
        simp [List.find?_cons, hpn, Ne.symm hne]
    · have hf : (p.name == name) = false := by simpa using hn
      simp only [updateOne, hf, Bool.false_eq_true, if_false]
      by_cases hpn : (p.name == n) = true
      · simp [List.find?_cons, hpn]
      · have hfn : (p.name == n) = false := by simpa using hpn
        simp only [List.find?_cons, hfn]
        exact ih

/-- A no-change report from `updateOne` means nothing was written. -/
theorem updateOne_unchanged (attrs : List ParamValue) (name : String)
    (value : Float4) (h : (updateOne attrs name value).2 = false) :
    (updateOne attrs name value).1 = attrs := by
  induction attrs with
  | nil => simp [updateOne] at h
  | cons p rest ih =>
    by_cases hn : (p.name == name) = true
    · by_cases hv : (p.value == value) = true
      · simp [updateOne, hn, hv]
      · simp [updateOne, hn, hv] at h
    · simp only [updateOne, hn, Bool.false_eq_true, if_false] at h ⊢
      rw [ih h]

/-- Every entry the update loop leaves behind was already stored or
carries a requested name. -/
theorem updateAttributes_mem (split : String → AttributeType × String)
    (resolve : String → Bool → Float4) (reqs : List String)
    (attrs : List ParamValue) (q : ParamValue)
    (hq : q ∈ (updateAttributes split resolve reqs attrs).1) :
    q ∈ attrs ∨ q.name ∈ reqs := by
  induction reqs generalizing attrs with
  | nil => exact Or.inl (by simpa [updateAttributes] using hq)
  | cons req reqs ih =>
    by_cases hg : ((split req).1 == AttributeType.GEOMETRY) = true
    · simp only [updateAttributes, hg, if_true] at hq
      rcases ih _ hq with h | h
      · exact Or.inl h
      · exact Or.inr (List.mem_cons_of_mem _ h)
    · have hgf : ((split req).1 == AttributeType.GEOMETRY) = false := by
        simpa using hg
      simp only [updateAttributes, hgf, Bool.false_eq_true, if_false] at hq
      rcases ih _ hq with h | h
      · rcases updateOne_mem _ _ _ _ h with h2 | h2
        · exact Or.inl h2
        · right; rw [h2]; simp
      · exact Or.inr (List.mem_cons_of_mem _ h)

/-- The update loop does not touch the first occurrence of a name that
is not among the requests. -/
theorem updateAttributes_find_other (split : String → AttributeType × String)
    (resolve : String → Bool → Float4) (reqs : List String)
    (attrs : List ParamValue) (n : String) (hn : n ∉ reqs) :
    ((updateAttributes split resolve reqs attrs).1).find?
        (fun p => p.name == n) =
      attrs.find? (fun p => p.name == n) := by
  induction reqs generalizing attrs with
  | nil => simp [updateAttributes]
  | cons req reqs ih =>
    have hne : n ≠ req := fun h => hn (h ▸ List.mem_cons_self req reqs)
    have hnr : n ∉ reqs := fun h => hn (List.mem_cons_of_mem _ h)
    by_cases hg : ((split req).1 == AttributeType.GEOMETRY) = true
    · simp only [updateAttributes, hg, if_true]
      exact ih _ hnr
    · have hgf : ((split req).1 == AttributeType.GEOMETRY) = false := by
        simpa using hg
      simp only [updateAttributes, hgf, Bool.false_eq_true, if_false]
      rw [ih _ hnr]
      exact updateOne_find_other _ _ _ _ hne

/-- After the update loop, the first stored occurrence of every
requested non-geometry name is the written target parameter. -/
theorem updateAttributes_find_target (split : String → AttributeType × String)
    (resolve : String → Bool → Float4) (reqs : List String)
    (attrs : List ParamValue) (req : String) (hreq : req ∈ reqs)
    (hg : (split req).1 ≠ AttributeType.GEOMETRY) :
    ((updateAttributes split resolve reqs attrs).1).find?
        (fun p => p.name == req) =
      some (targetParam split resolve req) := by
  induction reqs generalizing attrs with
  | nil => simp at hreq
  | cons req0 reqs ih =>
    by_cases hmem : req ∈ reqs
    · by_cases hg0 : ((split req0).1 == AttributeType.GEOMETRY) = true
      · simp only [updateAttributes, hg0, if_true]
        exact ih _ hmem
      · have hgf : ((split req0).1 == AttributeType.GEOMETRY) = false := by
          simpa using hg0
        simp only [updateAttributes, hgf, Bool.false_eq_true, if_false]
        exact ih _ hmem
    · have hr0 : req = req0 := by
        rcases List.mem_cons.mp hreq with h | h
        · exact h
        · exact absurd h hmem
      subst hr0
      have hgf : ((split req).1 == AttributeType.GEOMETRY) = false := by
        simpa using hg
      simp only [updateAttributes, hgf, Bool.false_eq_true, if_false]
      rw [updateAttributes_find_other split resolve reqs _ req hmem]
      simpa [targetParam] using updateOne_find attrs req
        (resolve (split req).2 ((split req).1 == AttributeType.INSTANCER))

/-- When every requested non-geometry name is already stored with its
target value, the update loop is the identity and reports no change. -/
theorem updateAttributes_id (split : String → AttributeType × String)
    (resolve : String → Bool → Float4) (reqs : List String)
    (attrs : List ParamValue)
    (h : ∀ req ∈ reqs, (split req).1 ≠ AttributeType.GEOMETRY →
      attrs.find? (fun p => p.name == req) =
        some (targetParam split resolve req)) :
    updateAttributes split resolve reqs attrs = (attrs, false) := by
  induction reqs generalizing attrs with
  | nil => rfl
  | cons req reqs ih =>
    by_cases hg : ((split req).1 == AttributeType.GEOMETRY) = true
    · simp only [updateAttributes, hg, if_true]
      exact ih _ (fun r hr hgr => h r (List.mem_cons_of_mem _ hr) hgr)
    · have hgn : (split req).1 ≠ AttributeType.GEOMETRY := by simpa using hg
      have hgf : ((split req).1 == AttributeType.GEOMETRY) = false := by
        simpa using hg
      have hupd := updateOne_id attrs req
        (resolve (split req).2 ((split req).1 == AttributeType.INSTANCER))
        (targetParam split resolve req) (h req (by simp) hgn) rfl
      simp only [updateAttributes, hgf, Bool.false_eq_true, if_false, hupd]
      rw [ih _ (fun r hr hgr => h r (List.mem_cons_of_mem _ hr) hgr)]
      rfl

/-- A no-change report from the update loop means nothing was
written. -/
theorem updateAttributes_unchanged (split : String → AttributeType × String)
    (resolve : String → Bool → Float4) (reqs : List String)
    (attrs : List ParamValue)
    (h : (updateAttributes split resolve reqs attrs).2 = false) :
    (updateAttributes split resolve reqs attrs).1 = attrs := by
  induction reqs generalizing attrs with
  | nil => rfl
  | cons req reqs ih =>
    by_cases hg : ((split req).1 == AttributeType.GEOMETRY) = true
    · simp only [updateAttributes, hg, if_true] at h ⊢
      exact ih _ h
    · have hgf : ((split req).1 == AttributeType.GEOMETRY) = false := by
        simpa using hg
      simp only [updateAttributes, hgf, Bool.false_eq_true, if_false] at h ⊢
      rcases Bool.or_eq_false_iff.mp h with ⟨h1, h2⟩
      rw [ih _ h2, updateOne_unchanged _ _ _ h1]

/-- C7: re-running `sync_object_attributes` on its own output (the
needed-attribute set and the resolved values unchanged) reports
`changed = false` and leaves the stored attribute sequence identical; a
reported no-change means the store was not touched at all (values are
rewritten only when they differ bitwise); and a stored attribute whose
name is no longer needed is removed from the store, raising the changed
flag. -/
theorem sync_object_attributes_minimal_diff
    (split : String → AttributeType × String) (bi : BInstance)
    (requests : List String) (attrs : List ParamValue) :
    sync_object_attributes split bi requests
        (sync_object_attributes split bi requests attrs).1 =
      ((sync_object_attributes split bi requests attrs).1, false) ∧
    ((sync_object_attributes split bi requests attrs).2 = false →
      (sync_object_attributes split bi requests attrs).1 = attrs) ∧
    (∀ p ∈ attrs, requestsFind requests p.name = false →
      (sync_object_attributes split bi requests attrs).2 = true ∧
      ∀ q ∈ (sync_object_attributes split bi requests attrs).1,
        q.name ≠ p.name) := by
  have hfst : ∀ ats : List ParamValue,
      (sync_object_attributes split bi requests ats).1 =
        (updateAttributes split
          (fun rn ui => lookup_instance_property bi rn ui) requests
          (removeUnneeded requests ats).1).1 := fun _ => rfl
  have hsnd : ∀ ats : List ParamValue,
      (sync_object_attributes split bi requests ats).2 =
        ((removeUnneeded requests ats).2 ||
          (updateAttributes split
            (fun rn ui => lookup_instance_property bi rn ui) requests
            (removeUnneeded requests ats).1).2) := fun _ => rfl
  have hkeep : ∀ q ∈ (sync_object_attributes split bi requests attrs).1,
      requestsFind requests q.name = true := by
    intro q hq
    rw [hfst] at hq
    rcases updateAttributes_mem _ _ _ _ _ hq with h | h
    · exact (removeUnneeded_mem _ _ _ h).2
    · simpa [requestsFind] using h
  refine ⟨?_, ?_, ?_⟩
  · have hrem2 : removeUnneeded requests
        (sync_object_attributes split bi requests attrs).1 =
        ((sync_object_attributes split bi requests attrs).1, false) :=
      removeUnneeded_id _ _ hkeep
    have hupd2 : updateAttributes split
        (fun rn ui => lookup_instance_property bi rn ui) requests
        (sync_object_attributes split bi requests attrs).1 =
        ((sync_object_attributes split bi requests attrs).1, false) := by
      refine updateAttributes_id _ _ _ _ ?_
      intro req hr hg
      rw [hfst]
      exact updateAttributes_find_target _ _ _ _ _ hr hg
    have h1 : (sync_object_attributes split bi requests
        (sync_object_attributes split bi requests attrs).1).1 =
        (sync_object_attributes split bi requests attrs).1 := by
      rw [hfst, hrem2]
      simpa using congrArg Prod.fst hupd2
    have h2 : (sync_object_attributes split bi requests
        (sync_object_attributes split bi requests attrs).1).2 = false := by
      rw [hsnd, hrem2]
      simpa using congrArg Prod.snd hupd2
    exact Prod.ext h1 h2
  · intro h
    rw [hsnd] at h
    rcases Bool.or_eq_false_iff.mp h with ⟨hr, hu⟩
    rw [hfst, updateAttributes_unchanged _ _ _ _ hu,
      removeUnneeded_unchanged _ _ hr]
  · intro p hp hpf
    constructor
    · rw [hsnd, removeUnneeded_removes_flag requests attrs p hp hpf]
      rfl
    · intro q hq hqn
      have hqt := hkeep q hq
      rw [hqn, hpf] at hqt
      exact Bool.false_ne_true hqt

/-- Closed witness for C7: a store holding only the no-longer-needed
attribute `b` reconciled against the needed set `[a]` reports a change
(the stale attribute is erased). -/
theorem sync_object_attributes_minimal_diff_witness :
    ((⟨"b", ⟨1, 2, 3, 4⟩⟩ : ParamValue) ∈
        [(⟨"b", ⟨1, 2, 3, 4⟩⟩ : ParamValue)] ∧
      requestsFind ["a"] (⟨"b", ⟨1, 2, 3, 4⟩⟩ : ParamValue).name = false) ∧
    (sync_object_attributes (fun n => (AttributeType.OBJECT, n))
        ⟨false, none, fun _ => none, fun _ => none, fun _ => none⟩ ["a"]
        [⟨"b", ⟨1, 2, 3, 4⟩⟩]).2 = true := by
  refine ⟨⟨by simp, by decide⟩, ?_⟩
  exact ((sync_object_attributes_minimal_diff
    (fun n => (AttributeType.OBJECT, n))
    ⟨false, none, fun _ => none, fun _ => none, fun _ => none⟩ ["a"]
    [⟨"b", ⟨1, 2, 3, 4⟩⟩]).2.2 ⟨"b", ⟨1, 2, 3, 4⟩⟩ (by simp) (by decide)).1

/-- C6: in a motion pass `sync_object` only updates existing entities
obtained through the non-mutating `find` — a miss is a no-op returning
absent, never an error, and it never creates an entity; a hit without
motion capability changes nothing; on a hit with motion capability only
the single motion slot `motion_step(motion_time)` is written (skipped
when negative), the geometry deform-motion sync runs exactly when
geometry is present, and no other entity state or map row is
mutated. -/
theorem sync_object_motion_pass_update_only (omap : ObjectMap)
    (key : ObjectKey) (motion_time : ℚ) (tfm : Transform) :
    (object_map_find omap key = none →
      sync_object_motion_pass omap key motion_time tfm =
        (none, omap, false)) ∧
    (∀ o, object_map_find omap key = some o → o.use_motion = false →
      sync_object_motion_pass omap key motion_time tfm =
        (some o, omap, false)) ∧
    (∀ o, object_map_find omap key = some o → o.use_motion = true →
      ∃ o2, sync_object_motion_pass omap key motion_time tfm =
          (some o2,
            List.map (fun kv => if kv.1 == key then (kv.1, o2) else kv) omap,
            o2.geometry.isSome) ∧
        o2.name = o.name ∧ o2.pass_id = o.pass_id ∧ o2.color = o.color ∧
        o2.tfm = o.tfm ∧ o2.geometry = o.geometry ∧
        o2.use_holdout = o.use_holdout ∧ o2.visibility = o.visibility ∧
        o2.is_shadow_catcher = o.is_shadow_catcher ∧
        o2.shadow_terminator_offset = o.shadow_terminator_offset ∧
        o2.asset_name = o.asset_name ∧
        o2.dupli_generated = o.dupli_generated ∧
        o2.dupli_uv = o.dupli_uv ∧ o2.random_id = o.random_id ∧
        o2.attributes = o.attributes ∧ o2.use_motion = o.use_motion ∧
        o2.motion_step = o.motion_step ∧
        o2.is_modified = o.is_modified ∧
        o2.use_holdout_modified = o.use_holdout_modified ∧
        (o.motion_step motion_time < 0 → o2.motion = o.motion) ∧
        (0 ≤ o.motion_step motion_time →
          o2.motion =
            o.motion.set (o.motion_step motion_time).toNat tfm ∧
          ∀ j, j ≠ (o.motion_step motion_time).toNat →
            o2.motion.get? j = o.motion.get? j)) := by
  refine ⟨?_, ?_, ?_⟩
  · intro h
    unfold sync_object_motion_pass
    rw [h]
  · intro o h hm
    unfold sync_object_motion_pass
    rw [h]
    simp [hm]
  · intro o h hm
    unfold sync_object_motion_pass
    rw [h]
    simp only [hm, if_true]
    by_cases hidx : 0 ≤ o.motion_step motion_time
    · simp only [if_pos hidx]
      refine ⟨_, rfl, ?_⟩
      and_intros
      all_goals first
        | rfl
        | exact hm
        | (intro hneg; exact absurd hidx (by omega))
        | (intro hpos; exact ⟨rfl, fun j hj => by
            simp [List.get?_eq_getElem?, List.getElem?_set_ne (Ne.symm hj)]⟩)
    · simp only [if_neg hidx]
      refine ⟨o, rfl, ?_⟩
      and_intros
      all_goals first
        | rfl
        | exact hm
        | (intro hneg; rfl)
        | (intro hpos; exact absurd hpos hidx)

/-- Closed witness for C6: a one-entry map whose entity has motion
capability and `motion_step` hitting slot 1; the slot is written and the
miss case on the empty map is a no-op. -/
theorem sync_object_motion_pass_witness :
    (sync_object_motion_pass [] ⟨0, [], 0, false⟩ (1/2) 7 =
      (none, [], false)) ∧
    ((sync_object_motion_pass
        [(⟨0, [], 0, false⟩,
          { name := "o", pass_id := 0, color := ⟨0, 0, 0⟩, tfm := 0,
            motion := [0, 0, 0], geometry := none, use_holdout := false,
            visibility := 255, is_shadow_catcher := false,
            shadow_terminator_offset := 0, asset_name := "o",
            dupli_generated := ⟨0, 0, 0⟩, dupli_uv := ⟨0, 0⟩,
            random_id := 0, attributes := [], use_motion := true,
            motion_step := fun _ => 1, is_modified := false,
            use_holdout_modified := false })]
        ⟨0, [], 0, false⟩ (1/2) 7).1.map (fun o => o.motion) =
      some [0, 7, 0]) := by
  have h := sync_object_motion_pass_update_only [] ⟨0, [], 0, false⟩
    (1/2) 7
  have h0 : object_map_find ([] : ObjectMap) ⟨0, [], 0, false⟩ = none := rfl
  refine ⟨h.1 h0, ?_⟩
  have h2 := sync_object_motion_pass_update_only
    [(⟨0, [], 0, false⟩,
      { name := "o", pass_id := 0, color := ⟨0, 0, 0⟩, tfm := 0,
        motion := [0, 0, 0], geometry := none, use_holdout := false,
        visibility := 255, is_shadow_catcher := false,
        shadow_terminator_offset := 0, asset_name := "o",
        dupli_generated := ⟨0, 0, 0⟩, dupli_uv := ⟨0, 0⟩,
        random_id := 0, attributes := [], use_motion := true,
        motion_step := fun _ => 1, is_modified := false,
        use_holdout_modified := false })]
    ⟨0, [], 0, false⟩ (1/2) 7
  rcases h2.2.2 _ rfl rfl with ⟨o2, heq, -, -, -, -, -, -, -, -, -, -, -,
    -, -, -, -, -, -, -, -, hpos⟩
  rw [heq]
  have hmot := (hpos (by norm_num)).1
  show some o2.motion = some [0, 7, 0]
  rw [hmot]
  rfl

/-- C5 counterexample: an entity whose stored state matches every
incoming value, except that one needed attribute resolves to a fresh
value. The specification's four-trigger change condition is false, yet
the dirty-tag operation runs (the attribute-reconciliation change flag
is a fifth trigger, via `object_updated`). -/
theorem sync_object_dirty_tag_counterexample :
    specChangeCondition cexInput cexObject false = false ∧
    (sync_object_full cexInput cexObject false
      (fun _ => 0)).tagged_update = true := by
  constructor
  · rfl
  · rfl

/-- C5 (amended): the entity's fields are rewritten and the scene
dirty-tag operation runs exactly when at least one of: the entity's own
is-modified flag, a freshly created-or-moved identity-map slot, a
change reported by attribute reconciliation, the geometry's modified
flag, or the cached transform differing from the new one; with none of
them, nothing is rewritten and no dirty-tag is issued. -/
theorem sync_object_dirty_tag_iff (inp : FullSyncInput) (obj0 : CObject)
    (created : Bool) (hash : String → Nat) :
    ((sync_object_full inp obj0 created hash).tagged_update = true ↔
      ((fullSyncWrites inp obj0).1.is_modified = true ∨ created = true ∨
        (fullSyncWrites inp obj0).2.1 = true ∨
        (∃ g, (fullSyncWrites inp obj0).1.geometry = some g ∧
          g.is_modified = true) ∨
        inp.tfm ≠ (fullSyncWrites inp obj0).1.tfm)) ∧
    ((sync_object_full inp obj0 created hash).tagged_update = false →
      (sync_object_full inp obj0 created hash).object =
        (fullSyncWrites inp obj0).1) := by
  have htag : (sync_object_full inp obj0 created hash).tagged_update =
      fullSyncChanged inp obj0 created := by
    cases hc : fullSyncChanged inp obj0 created <;>
      simp [sync_object_full, hc]
  constructor
  · rw [htag]
    unfold fullSyncChanged
    cases hgeo : (fullSyncWrites inp obj0).1.geometry with
    | none =>
      simp [hgeo, Bool.or_eq_true, bne_iff_ne]
      tauto
    | some g =>
      simp [hgeo, Bool.or_eq_true, bne_iff_ne]
      tauto
  · intro h
    rw [htag] at h
    simp [sync_object_full, h]

/-- Closed witness for C5's amended statement: a fully unchanged
re-sync (the stored attribute already equals the resolved value)
triggers no dirty-tag and rewrites nothing. -/
theorem sync_object_dirty_tag_iff_witness :
    (sync_object_full cexInput cexObjectClean false
      (fun _ => 0)).tagged_update = false ∧
    (sync_object_full cexInput cexObjectClean false (fun _ => 0)).object =
      (fullSyncWrites cexInput cexObjectClean).1 := by
  refine ⟨rfl, ?_⟩
  exact (sync_object_dirty_tag_iff cexInput cexObjectClean false
    (fun _ => 0)).2 rfl

/-- C10: every non-motion, non-skipped `sync_object` call writes the
entity's geometry pointer, holdout flag, visibility mask,
shadow-catcher flag, shadow-terminator offset and asset name
unconditionally — whether or not the change detection fires — and the
`HOLDOUT_MODIFIED` tag is raised exactly when the written holdout value
differs from the stored one (for an entity whose holdout socket flag is
clear on entry). -/
theorem sync_object_unconditional_writes (inp : FullSyncInput)
    (obj0 : CObject) (created : Bool) (hash : String → Nat)
    (h : obj0.use_holdout_modified = false) :
    (sync_object_full inp obj0 created hash).object.geometry.map
        (fun g => g.id) = inp.geometry.map (fun g => g.id) ∧
    (sync_object_full inp obj0 created hash).object.use_holdout =
      inp.use_holdout ∧
    (sync_object_full inp obj0 created hash).object.visibility =
      inp.visibility ∧
    (sync_object_full inp obj0 created hash).object.is_shadow_catcher =
      inp.is_shadow_catcher ∧
    (sync_object_full inp obj0 created
      hash).object.shadow_terminator_offset =
      inp.shadow_terminator_offset ∧
    (sync_object_full inp obj0 created hash).object.asset_name =
      inp.asset_name ∧
    ((sync_object_full inp obj0 created hash).holdout_tagged = true ↔
      inp.use_holdout ≠ obj0.use_holdout) := by
  have hgmap : ∀ og : Option CGeometry, ∀ mb : MotionBlurEffect,
      (og.map (applyMotionToGeometry mb)).map (fun g => g.id) =
        og.map (fun g => g.id) := by
    intro og mb
    cases og <;> simp [applyMotionToGeometry]
  have hholdout : (sync_object_full inp obj0 created
      hash).holdout_tagged = (inp.use_holdout != obj0.use_holdout) := by
    cases hc : fullSyncChanged inp obj0 created <;>
      simp [sync_object_full, hc, fullSyncWrites, h]
  refine ⟨?_, ?_, ?_, ?_, ?_, ?_, ?_⟩
  · cases hc : fullSyncChanged inp obj0 created
    · simp [sync_object_full, hc, fullSyncWrites]
    · simp [sync_object_full, hc, fullSyncWrites]
      by_cases hnm : inp.need_motion = MotionType.NONE
      · simp [hnm]
      · simp [hnm, hgmap]
  · cases hc : fullSyncChanged inp obj0 created <;>
      simp [sync_object_full, hc, fullSyncWrites]
  · cases hc : fullSyncChanged inp obj0 created <;>
      simp [sync_object_full, hc, fullSyncWrites]
  · cases hc : fullSyncChanged inp obj0 created <;>
      simp [sync_object_full, hc, fullSyncWrites]
  · cases hc : fullSyncChanged inp obj0 created <;>
      simp [sync_object_full, hc, fullSyncWrites]
  · cases hc : fullSyncChanged inp obj0 created <;>
      simp [sync_object_full, hc, fullSyncWrites]
  · rw [hholdout]
    simp [bne_iff_ne]

/-- Closed witness for C10 at the concrete entity/input pair: the
holdout socket flag is clear on entry and the written visibility equals
the incoming mask. -/
theorem sync_object_unconditional_writes_witness :
    cexObject.use_holdout_modified = false ∧
    (sync_object_full cexInput cexObject false
      (fun _ => 0)).object.visibility = 255 := by
  refine ⟨rfl, ?_⟩
  have h := sync_object_unconditional_writes cexInput cexObject false
    (fun _ => 0) rfl
  exact h.2.2.1.trans rfl

/-- C8: the geometry-conversion pool reaches geometry sync only for
non-instanced objects — an instance's pool argument is replaced by null
(inline conversion); and when particle hair is synced as a separate
object, the host object's own call receives no pool while the hair call
receives it (reaching its geometry sync exactly for non-instances). -/
theorem geometry_pool_only_for_non_instances (is_instance sync_hair : Bool)
    (pool : Nat) :
    (is_instance = true →
      object_geom_task_pool is_instance (driverSelfPool sync_hair pool) =
        none ∧
      object_geom_task_pool is_instance (driverHairPool pool) = none) ∧
    (object_geom_task_pool is_instance (driverSelfPool sync_hair pool) =
        some pool ↔ is_instance = false ∧ sync_hair = false) ∧
    (sync_hair = true →
      object_geom_task_pool is_instance (driverSelfPool sync_hair pool) =
        none ∧
      driverHairPool pool = some pool ∧
      (object_geom_task_pool is_instance (driverHairPool pool) =
          some pool ↔ is_instance = false)) := by
  cases is_instance <;> cases sync_hair <;>
    simp [object_geom_task_pool, driverSelfPool, driverHairPool]

/-- Closed witness for C8: an instanced object with separate hair sync
gets no pool on either call. -/
theorem geometry_pool_witness :
    object_geom_task_pool true (driverSelfPool true 0) = none ∧
    object_geom_task_pool true (driverHairPool 0) = none :=
  (geometry_pool_only_for_non_instances true true 0).1 rfl

/-- A shown instance's body events are exactly its sync calls and one
poll, all referring to that instance's index. -/
theorem mem_driverBody (i : Nat) (inst : DriverInstance) (e : DriverEvent)
    (he : e ∈ driverBody i inst) :
    e = DriverEvent.syncSelf i ∨ e = DriverEvent.syncHair i ∨
      e = DriverEvent.poll i := by
  unfold driverBody at he
  cases hs : inst.show_self <;> cases hh : inst.sync_hair <;>
    simp [hs, hh] at he <;> tauto

/-- The body of a shown instance always contains its poll. -/
theorem poll_mem_driverBody (i : Nat) (inst : DriverInstance) :
    DriverEvent.poll i ∈ driverBody i inst := by
  unfold driverBody
  simp

/-- Body events carry the instance's own index. -/
theorem driverBody_idx (i : Nat) (inst : DriverInstance) (e : DriverEvent)
    (he : e ∈ driverBody i inst) : evIdx e = i := by
  rcases mem_driverBody i inst e he with h | h | h <;> simp [h, evIdx]

/-- A cancelled loop emits nothing. -/
theorem driverLoop_cancelled (cnc : Nat → Bool) (i : Nat)
    (insts : List DriverInstance) :
    driverLoop cnc i insts true = ([], true) := by
  cases insts <;> simp [driverLoop]

/-- The instance loop emits neither the pool drain nor the post-sync
sweep. -/
theorem driverLoop_no_drain_events (cnc : Nat → Bool)
    (insts : List DriverInstance) (i : Nat) (c : Bool) :
    ∀ e ∈ (driverLoop cnc i insts c).1,
      e ≠ DriverEvent.waitWork ∧ e ≠ DriverEvent.postSync := by
  induction insts generalizing i c with
  | nil => intro e he; simp [driverLoop] at he
  | cons inst rest ih =>
    intro e he
    by_cases hc : c = true
    · rw [hc, driverLoop_cancelled] at he
      simp at he
    · have hcf : c = false := by simpa using hc
      subst hcf
      by_cases hs : inst.show_in_viewport = true
      · simp only [driverLoop, Bool.false_eq_true, if_false, hs,
          Bool.not_true] at he
        rcases List.mem_append.mp he with he | he
        · rcases mem_driverBody _ _ _ he with h | h | h <;> simp [h]
        · exact ih _ _ e he
      · have hsf : inst.show_in_viewport = false := by simpa using hs
        simp only [driverLoop, Bool.false_eq_true, if_false, hsf,
          Bool.not_false, if_true] at he
        exact ih _ _ e he

/-- Every event the loop emits refers to an instance at or past the
starting index. -/
theorem driverLoop_idx_ge (cnc : Nat → Bool)
    (insts : List DriverInstance) (i : Nat) (c : Bool) :
    ∀ e ∈ (driverLoop cnc i insts c).1, i ≤ evIdx e := by
  induction insts generalizing i c with
  | nil => intro e he; simp [driverLoop] at he
  | cons inst rest ih =>
    intro e he
    by_cases hc : c = true
    · rw [hc, driverLoop_cancelled] at he
      simp at he
    · have hcf : c = false := by simpa using hc
      subst hcf
      by_cases hs : inst.show_in_viewport = true
      · simp only [driverLoop, Bool.false_eq_true, if_false, hs,
          Bool.not_true] at he
        rcases List.mem_append.mp he with he | he
        · rw [driverBody_idx _ _ _ he]
        · exact le_trans (by omega) (ih _ _ e he)
      · have hsf : inst.show_in_viewport = false := by simpa using hs
        simp only [driverLoop, Bool.false_eq_true, if_false, hsf,
          Bool.not_false, if_true] at he
        exact le_trans (by omega) (ih _ _ e he)

/-- A poll for instance `k` is only emitted by a viewport-visible
instance sitting `k - i` places into the remaining list. -/
theorem driverLoop_poll_shown (cnc : Nat → Bool)
    (insts : List DriverInstance) (i : Nat) (c : Bool) (k : Nat)
    (hp : DriverEvent.poll k ∈ (driverLoop cnc i insts c).1) :
    ∃ inst, insts[k - i]? = some inst ∧
      inst.show_in_viewport = true := by
  induction insts generalizing i c with
  | nil => simp [driverLoop] at hp
  | cons inst rest ih =>
    by_cases hc : c = true
    · rw [hc, driverLoop_cancelled] at hp
      simp at hp
    · have hcf : c = false := by simpa using hc
      subst hcf
      by_cases hs : inst.show_in_viewport = true
      · simp only [driverLoop, Bool.false_eq_true, if_false, hs,
          Bool.not_true] at hp
        rcases List.mem_append.mp hp with hp | hp
        · rcases mem_driverBody _ _ _ hp with h | h | h
          · simp at h
          · simp at h
          · have hk : k = i := by
              injection h
            subst hk
            refine ⟨inst, ?_, hs⟩
            simp
        · rcases ih _ _ hp with ⟨inst2, hg, hsh⟩
          have hk : i + 1 ≤ k :=
            driverLoop_idx_ge cnc rest (i + 1) (cnc i) _ hp
          have hksub : k - i = (k - (i + 1)) + 1 := by omega
          exact ⟨inst2, by rw [hksub]; simpa using hg, hsh⟩
      · have hsf : inst.show_in_viewport = false := by simpa using hs
        simp only [driverLoop, Bool.false_eq_true, if_false, hsf,
          Bool.not_false, if_true] at hp
        rcases ih _ _ hp with ⟨inst2, hg, hsh⟩
        have hk : i + 1 ≤ k :=
          driverLoop_idx_ge cnc rest (i + 1) false _ hp
        have hksub : k - i = (k - (i + 1)) + 1 := by omega
        exact ⟨inst2, by rw [hksub]; simpa using hg, hsh⟩

/-- Once the poll of instance `i2` reports cancellation, no event past
`i2` is emitted: the enumeration stops submitting new work. -/
theorem driverLoop_cancel_stops (cnc : Nat → Bool)
    (insts : List DriverInstance) (i : Nat) (c : Bool) (i2 : Nat)
    (hcnc : cnc i2 = true)
    (hp : DriverEvent.poll i2 ∈ (driverLoop cnc i insts c).1) :
    ∀ e ∈ (driverLoop cnc i insts c).1, evIdx e ≤ i2 := by
  induction insts generalizing i c with
  | nil => simp [driverLoop] at hp
  | cons inst rest ih =>
    by_cases hc : c = true
    · rw [hc, driverLoop_cancelled] at hp
      simp at hp
    · have hcf : c = false := by simpa using hc
      subst hcf
      by_cases hs : inst.show_in_viewport = true
      · simp only [driverLoop, Bool.false_eq_true, if_false, hs,
          Bool.not_true] at hp ⊢
        rcases List.mem_append.mp hp with hp | hp
        · have hi : i2 = i := by
            have := driverBody_idx _ _ _ hp
            simpa [evIdx] using this
          subst hi
          intro e he
          rcases List.mem_append.mp he with he | he
          · exact le_of_eq (driverBody_idx _ _ _ he)
          · rw [hcnc, driverLoop_cancelled] at he
            simp at he
        · have hk : i + 1 ≤ i2 :=
            driverLoop_idx_ge cnc rest (i + 1) (cnc i) _ hp
          intro e he
          rcases List.mem_append.mp he with he | he
          · have := driverBody_idx _ _ _ he
            omega
          · exact ih _ _ hp e he
      · have hsf : inst.show_in_viewport = false := by simpa using hs
        simp only [driverLoop, Bool.false_eq_true, if_false, hsf,
          Bool.not_false, if_true] at hp ⊢
        exact ih _ _ hp

/-- With no cancellation, every viewport-visible instance is polled. -/
theorem driverLoop_all_polled (cnc : Nat → Bool)
    (hnc : ∀ k, cnc k = false) (insts : List DriverInstance) (i : Nat) :
    ∀ k inst, insts[k]? = some inst → inst.show_in_viewport = true →
      DriverEvent.poll (i + k) ∈ (driverLoop cnc i insts false).1 := by
  induction insts generalizing i with
  | nil => intro k inst hg; simp at hg
  | cons inst0 rest ih =>
    intro k inst hg hsh
    cases k with
    | zero =>
      simp at hg
      subst hg
      simp only [driverLoop, Bool.false_eq_true, if_false, hsh,
        Bool.not_true]
      exact List.mem_append.mpr (Or.inl (poll_mem_driverBody i inst0))
    | succ k =>
      simp at hg
      by_cases hs : inst0.show_in_viewport = true
      · simp only [driverLoop, Bool.false_eq_true, if_false, hs,
          Bool.not_true]
        rw [hnc i]
        have hrec := ih (i + 1) k inst hg hsh
        have harith : i + 1 + k = i + (k + 1) := by omega
        rw [harith] at hrec
        exact List.mem_append.mpr (Or.inr hrec)
      · have hsf : inst0.show_in_viewport = false := by simpa using hs
        simp only [driverLoop, Bool.false_eq_true, if_false, hsf,
          Bool.not_false, if_true]
        have hrec := ih (i + 1) k inst hg hsh
        have harith : i + 1 + k = i + (k + 1) := by omega
        rw [harith] at hrec
        exact hrec

/-- C9 counterexample: a one-instance enumeration whose instance is
hidden in the viewport. The `continue` skips the whole body including
the cancel poll, so the trace contains no poll for the enumerated
instance. -/
theorem sync_objects_poll_counterexample :
    [(⟨false, true, true⟩ : DriverInstance)].length = 1 ∧
    sync_objects_trace false [⟨false, true, true⟩] (fun _ => false) =
      [DriverEvent.waitWork, DriverEvent.postSync] ∧
    DriverEvent.poll 0 ∉
      sync_objects_trace false [⟨false, true, true⟩] (fun _ => false) := by
  refine ⟨rfl, rfl, ?_⟩
  decide

/-- C9 (amended): every `sync_objects` run drains the worker pool
exactly once, after the loop — only the post-sync sweep may follow the
drain, so the sweep runs after it and the drain happens before
returning, on cancellation too (already-submitted work is drained,
never abandoned); cancellation is polled once per processed
viewport-visible instance (hidden instances are skipped without a
poll), and once a poll reports cancellation no work for any later
instance is dispatched. -/
theorem sync_objects_drain_and_cancellation (motion : Bool)
    (insts : List DriverInstance) (cnc : Nat → Bool) :
    (sync_objects_trace motion insts cnc).count DriverEvent.waitWork = 1 ∧
    (∃ pre post, sync_objects_trace motion insts cnc =
        pre ++ DriverEvent.waitWork :: post ∧
      DriverEvent.postSync ∉ pre ∧
      ∀ e ∈ post, e = DriverEvent.postSync) ∧
    ((∀ k, cnc k = false) → ∀ k inst, insts[k]? = some inst →
      inst.show_in_viewport = true →
      DriverEvent.poll k ∈ sync_objects_trace motion insts cnc) ∧
    (∀ k inst, insts[k]? = some inst → inst.show_in_viewport = false →
      DriverEvent.poll k ∉ sync_objects_trace motion insts cnc) ∧
    (∀ i j, cnc i = true →
      DriverEvent.poll i ∈ sync_objects_trace motion insts cnc → i < j →
      DriverEvent.syncSelf j ∉ sync_objects_trace motion insts cnc ∧
      DriverEvent.syncHair j ∉ sync_objects_trace motion insts cnc) := by
  have htr : sync_objects_trace motion insts cnc =
      (driverLoop cnc 0 insts false).1 ++ DriverEvent.waitWork ::
        (if !(driverLoop cnc 0 insts false).2 && !motion then
          [DriverEvent.postSync] else []) := by
    unfold sync_objects_trace
    simp
  have htail : ∀ e, e ∈ (if !(driverLoop cnc 0 insts false).2 && !motion
      then [DriverEvent.postSync] else []) → e = DriverEvent.postSync := by
    intro e he
    cases hc : (!(driverLoop cnc 0 insts false).2 && !motion) <;>
      rw [hc] at he <;> simp at he
    exact he
  refine ⟨?_, ?_, ?_, ?_, ?_⟩
  · rw [htr, List.count_append]
    have hcl : (driverLoop cnc 0 insts false).1.count
        DriverEvent.waitWork = 0 :=
      List.count_eq_zero.mpr (fun h =>
        (driverLoop_no_drain_events cnc insts 0 false _ h).1 rfl)
    rw [hcl]
    cases hc : (!(driverLoop cnc 0 insts false).2 && !motion) <;>
      simp [List.count_cons]
  · refine ⟨_, _, htr, ?_, htail⟩
    intro hmem
    exact (driverLoop_no_drain_events cnc insts 0 false _ hmem).2 rfl
  · intro hnc k inst hg hsh
    rw [htr]
    refine List.mem_append.mpr (Or.inl ?_)
    have := driverLoop_all_polled cnc hnc insts 0 k inst hg hsh
    simpa using this
  · intro k inst hg hsh hmem
    rw [htr] at hmem
    rcases List.mem_append.mp hmem with hmem | hmem
    · rcases driverLoop_poll_shown cnc insts 0 false k hmem with
        ⟨inst2, hg2, hsh2⟩
      rw [Nat.sub_zero, hg] at hg2
      injection hg2 with h2
      rw [← h2, hsh] at hsh2
      exact Bool.false_ne_true hsh2
    · rcases List.mem_cons.mp hmem with h | h
      · simp at h
      · have := htail _ h
        simp at this
  · intro i j hci hpi hij
    rw [htr] at hpi
    have hploop : DriverEvent.poll i ∈ (driverLoop cnc 0 insts false).1 := by
      rcases List.mem_append.mp hpi with h | h
      · exact h
      · rcases List.mem_cons.mp h with h | h
        · simp at h
        · have := htail _ h
          simp at this
    constructor
    · intro hmem
      rw [htr] at hmem
      rcases List.mem_append.mp hmem with h | h
      · have := driverLoop_cancel_stops cnc insts 0 false i hci hploop _ h
        simp [evIdx] at this
        omega
      · rcases List.mem_cons.mp h with h | h
        · simp at h
        · have := htail _ h
          simp at this
    · intro hmem
      rw [htr] at hmem
      rcases List.mem_append.mp hmem with h | h
      · have := driverLoop_cancel_stops cnc insts 0 false i hci hploop _ h
        simp [evIdx] at this
        omega
      · rcases List.mem_cons.mp h with h | h
        · simp at h
        · have := htail _ h
          simp at this

/-- Closed witness for C9: two visible instances with cancellation
reported after the first — the first instance is polled, and no work
for the second instance is dispatched. -/
theorem sync_objects_drain_witness :
    DriverEvent.poll 0 ∈ sync_objects_trace false
      [⟨true, true, false⟩, ⟨true, true, false⟩] (fun k => k == 0) ∧
    DriverEvent.syncSelf 1 ∉ sync_objects_trace false
      [⟨true, true, false⟩, ⟨true, true, false⟩] (fun k => k == 0) := by
  refine ⟨by decide, ?_⟩
  exact ((sync_objects_drain_and_cancellation false
    [⟨true, true, false⟩, ⟨true, true, false⟩] (fun k => k == 0)).2.2.2.2
    0 1 (by decide) (by decide) (by decide)).1

/-- Closed witness for C4 at `N = 5` in blur mode: the hypotheses hold
and the center slot (index 2) carries the base transform at offset 0. -/
theorem sync_object_motion_blur_witness :
    MotionType.BLUR ≠ MotionType.NONE ∧
    effectiveMotionSteps MotionType.BLUR 5 % 2 = 1 ∧
    (motion_time (effectiveMotionSteps MotionType.BLUR 5)
        (effectiveMotionSteps MotionType.BLUR 5 / 2) = 0 ∧
      (syncMotionBlur MotionType.BLUR 5 true true (1 : ℚ)).motion.get?
        (effectiveMotionSteps MotionType.BLUR 5 / 2) = some 1) :=
  ⟨by decide, by decide,
    (sync_object_motion_blur_inserts_symmetric_times MotionType.BLUR 5 true
        (1 : ℚ) (by decide) (by decide)).2.2.2⟩

end BlenderObject
